import Mathlib

/-!
Shallow embedding of the `essentia_vpn_plugin` core (tunnel state machine,
post-quantum key-exchange engine, server router, session orchestrator) and
proofs of its specified properties.

Conventions of the embedding:
* Rust `Vec<u8>` buffers are `List Nat`; only emptiness, length and byte
  values matter to the properties.
* Rust `f32` load gauges are modelled as rationals `ℚ` (the properties are
  about ordering and clamping of finite values).
* Fallible Rust methods returning `VpnResult<T>` become Lean functions
  returning the mutated state together with `Except VpnError T`.
* `Rc<RefCell<VpnServer>>` sharing in the router is modelled by the router
  owning its list of servers; `update_server_load` rewrites the matching
  list entry, which is the observable effect of the interior mutation.
-/

/-- Mirrors `VpnError` in `src/errors/vpn_error.rs`. -/
inductive VpnError where
  | Connection (msg : String)
  | KeyExchange (msg : String)
  | Tunnel (msg : String)
  | Authentication (msg : String)
  | Configuration (msg : String)
  | Network (msg : String)
  deriving DecidableEq, Repr

/-- Mirrors `VpnResult<T> = Result<T, VpnError>`. -/
abbrev VpnResult (α : Type) := Except VpnError α

/-- Mirrors `TunnelState` in `src/types/core.rs`. -/
inductive TunnelState where
  | Disconnected
  | Connecting
  | KeyExchange
  | Connected
  | Reconnecting
  | Disconnecting
  | Error
  deriving DecidableEq, Repr

/-- Mirrors `EncryptionAlgorithm` in `src/types/core.rs`. -/
inductive EncryptionAlgorithm where
  | Aes256Gcm
  | ChaCha20Poly1305
  | Aes256GcmPqc
  deriving DecidableEq, Repr

/-- Mirrors `KeyExchangeProtocol` in `src/types/core.rs`. -/
inductive KeyExchangeProtocol where
  | X25519
  | MlKem
  | HybridMlKem
  deriving DecidableEq, Repr

/-- Mirrors `VpnServer` in `src/types/core.rs`; `load : f32` becomes `ℚ`. -/
structure VpnServer where
  id : String
  hostname : String
  port : Nat
  country : String
  city : String
  load : ℚ
  pqc_enabled : Bool
  deriving DecidableEq, Repr

/-- Mirrors `ConnectionStats` in `src/types/core.rs`. -/
structure ConnectionStats where
  bytes_sent : Nat
  bytes_received : Nat
  uptime_secs : Nat
  latency_ms : Nat
  packet_loss : ℚ
  deriving DecidableEq, Repr

/-- `ConnectionStats::default()`: all counters zero. -/
def ConnectionStats.default : ConnectionStats :=
  { bytes_sent := 0, bytes_received := 0, uptime_secs := 0,
    latency_ms := 0, packet_loss := 0 }

/-- Mirrors `VpnTunnel` in `src/types/core.rs`. -/
structure VpnTunnel where
  id : Nat
  server : VpnServer
  state : TunnelState
  encryption : EncryptionAlgorithm
  key_exchange : KeyExchangeProtocol
  stats : ConnectionStats
  deriving DecidableEq, Repr

/-- Mirrors `PqcKeyExchange` in `src/implementation/key_exchange.rs`:
a protocol choice plus optional public-key and shared-secret buffers. -/
structure PqcKeyExchange where
  protocol : KeyExchangeProtocol
  public_key : Option (List Nat)
  shared_secret : Option (List Nat)
  deriving DecidableEq, Repr

namespace PqcKeyExchange

/-- `PqcKeyExchange::new(protocol)`. -/
def new (protocol : KeyExchangeProtocol) : PqcKeyExchange :=
  { protocol := protocol, public_key := none, shared_secret := none }

/-- `PqcKeyExchange::generate_keypair`: stores and returns the placeholder
1184-byte ML-KEM-768 public key. -/
def generate_keypair (s : PqcKeyExchange) :
    PqcKeyExchange × VpnResult (List Nat) :=
  let public_key := List.replicate 1184 0
  ({ s with public_key := some public_key }, Except.ok public_key)

/-- `PqcKeyExchange::encapsulate`: rejects an empty peer public key,
otherwise stores the 32-byte shared secret and returns the 1088-byte
ciphertext together with the secret. -/
def encapsulate (s : PqcKeyExchange) (server_public_key : List Nat) :
    PqcKeyExchange × VpnResult (List Nat × List Nat) :=
  if server_public_key.isEmpty then
    (s, Except.error (VpnError.KeyExchange "Empty server public key"))
  else
    let ciphertext := List.replicate 1088 0
    let shared_secret := List.replicate 32 0
    ({ s with shared_secret := some shared_secret },
      Except.ok (ciphertext, shared_secret))

/-- `PqcKeyExchange::decapsulate`: rejects an empty ciphertext, otherwise
stores and returns the 32-byte shared secret. -/
def decapsulate (s : PqcKeyExchange) (ciphertext : List Nat) :
    PqcKeyExchange × VpnResult (List Nat) :=
  if ciphertext.isEmpty then
    (s, Except.error (VpnError.KeyExchange "Empty ciphertext"))
  else
    let shared_secret := List.replicate 32 0
    ({ s with shared_secret := some shared_secret }, Except.ok shared_secret)

/-- `PqcKeyExchange::shared_secret` accessor. -/
def shared_secret_of (s : PqcKeyExchange) : Option (List Nat) :=
  s.shared_secret

/-- The first half of `PqcKeyExchange::clear`: the `fill(0)` calls that
overwrite any held public key and shared secret with zero bytes. -/
def zero_fill (s : PqcKeyExchange) : PqcKeyExchange :=
  { s with
    public_key := s.public_key.map (List.map (fun _ => 0)),
    shared_secret := s.shared_secret.map (List.map (fun _ => 0)) }

/-- `PqcKeyExchange::clear`: zero-fill both buffers, then discard them.
`Drop::drop` calls exactly this function. -/
def clear (s : PqcKeyExchange) : PqcKeyExchange :=
  { zero_fill s with public_key := none, shared_secret := none }

end PqcKeyExchange

/-- Mirrors `TunnelManager` in `src/implementation/tunnel.rs`. -/
structure TunnelManager where
  active_tunnel : Option VpnTunnel
  next_tunnel_id : Nat
  deriving DecidableEq, Repr

namespace TunnelManager

/-- `TunnelManager::new()`: no active tunnel, ids start at 1. -/
def new : TunnelManager :=
  { active_tunnel := none, next_tunnel_id := 1 }

/-- `TunnelManager::create_tunnel`: fails with a Tunnel error if a tunnel is
already active; otherwise allocates the next id, stores a frozen copy of the
server in state `Connecting` with default stats, and returns the id. -/
def create_tunnel (m : TunnelManager) (server : VpnServer) :
    TunnelManager × VpnResult Nat :=
  if m.active_tunnel.isSome then
    (m, Except.error (VpnError.Tunnel "Tunnel already active"))
  else
    let id := m.next_tunnel_id
    ({ active_tunnel := some
        { id := id, server := server, state := TunnelState.Connecting,
          encryption := EncryptionAlgorithm.Aes256GcmPqc,
          key_exchange := KeyExchangeProtocol.HybridMlKem,
          stats := ConnectionStats.default },
       next_tunnel_id := id + 1 },
     Except.ok id)

/-- `TunnelManager::update_state`: overwrite the active tunnel's state if one
exists, no-op otherwise. -/
def update_state (m : TunnelManager) (state : TunnelState) : TunnelManager :=
  match m.active_tunnel with
  | some tunnel => { m with active_tunnel := some { tunnel with state := state } }
  | none => m

/-- `TunnelManager::close_tunnel`: mark the active tunnel `Disconnecting`,
then drop it (the intermediate state is unobservable; the net effect is
`active_tunnel = none`). -/
def close_tunnel (m : TunnelManager) : TunnelManager :=
  let m1 := m.update_state TunnelState.Disconnecting
  { m1 with active_tunnel := none }

/-- `TunnelManager::is_connected`: true iff an active tunnel exists and its
state is exactly `Connected`. -/
def is_connected (m : TunnelManager) : Bool :=
  match m.active_tunnel with
  | some t => t.state = TunnelState.Connected
  | none => false

end TunnelManager

/-- Mirrors `NeuralRouter` in `src/implementation/router.rs`; the
`Rc<RefCell<_>>` pool becomes an owned list in insertion order. -/
structure NeuralRouter where
  servers : List VpnServer
  deriving DecidableEq, Repr

namespace NeuralRouter

/-- `NeuralRouter::new()`. -/
def new : NeuralRouter := { servers := [] }

/-- `NeuralRouter::add_server`. -/
def add_server (r : NeuralRouter) (server : VpnServer) : NeuralRouter :=
  { r with servers := r.servers ++ [server] }

/-- Rust `Iterator::min_by` keyed on `load`: fold that replaces the
accumulator only on a strictly smaller load, so the first minimal element
of the list wins ties. `none` on the empty list. -/
def minByLoad : List VpnServer → Option VpnServer
  | [] => none
  | s :: rest =>
      some (rest.foldl (fun acc y => if y.load < acc.load then y else acc) s)

/-- `NeuralRouter::find_best_server`: among servers matching the country
with the PQC flag set, the minimum-load server (first wins ties). -/
def find_best_server (r : NeuralRouter) (country : String) : Option VpnServer :=
  minByLoad (r.servers.filter (fun s => s.country = country ∧ s.pqc_enabled))

/-- `NeuralRouter::find_optimal_server`: as `find_best_server` but without
the country filter. -/
def find_optimal_server (r : NeuralRouter) : Option VpnServer :=
  minByLoad (r.servers.filter (fun s => s.pqc_enabled))

/-- Rust `f32::clamp(0.0, 1.0)` on a finite value. -/
def clampLoad (load : ℚ) : ℚ :=
  if load < 0 then 0 else if load > 1 then 1 else load

/-- Helper for `update_server_load`: rewrite the load of the first server
whose id matches (`iter().find(..)` followed by the interior mutation). -/
def updateFirst : List VpnServer → String → ℚ → List VpnServer
  | [], _, _ => []
  | s :: rest, server_id, load =>
      if s.id = server_id then { s with load := clampLoad load } :: rest
      else s :: updateFirst rest server_id load

/-- `NeuralRouter::update_server_load`: clamp into `[0, 1]` and write to the
matching server; no-op when the id is absent. -/
def update_server_load (r : NeuralRouter) (server_id : String) (load : ℚ) :
    NeuralRouter :=
  { r with servers := updateFirst r.servers server_id load }

end NeuralRouter

/-- Mirrors `VpnConfig` in `src/implementation/config.rs`. -/
structure VpnConfig where
  kill_switch : Bool
  dns_leak_protection : Bool
  encryption : EncryptionAlgorithm
  key_exchange : KeyExchangeProtocol
  auto_reconnect : Bool
  max_reconnect_attempts : Nat
  reconnect_delay_secs : Nat
  split_tunneling : Bool
  deriving DecidableEq, Repr

/-- `VpnConfig::default()`. -/
def VpnConfig.default : VpnConfig :=
  { kill_switch := true, dns_leak_protection := true,
    encryption := EncryptionAlgorithm.Aes256GcmPqc,
    key_exchange := KeyExchangeProtocol.HybridMlKem,
    auto_reconnect := true, max_reconnect_attempts := 5,
    reconnect_delay_secs := 5, split_tunneling := false }

/-- Mirrors `VpnPlugin` in `src/implementation/plugin.rs`. -/
structure VpnPlugin where
  config : VpnConfig
  tunnel_manager : TunnelManager
  key_exchange : Option PqcKeyExchange
  router : NeuralRouter
  kill_switch_active : Bool
  deriving DecidableEq, Repr

namespace VpnPlugin

/-- `VpnPlugin::new(config)`. -/
def new (config : VpnConfig) : VpnPlugin :=
  { config := config, tunnel_manager := TunnelManager.new,
    key_exchange := none, router := NeuralRouter.new,
    kill_switch_active := false }

/-- `VpnPlugin::is_connected`. -/
def is_connected (p : VpnPlugin) : Bool :=
  p.tunnel_manager.is_connected

/-- `VpnPlugin::activate_kill_switch`. -/
def activate_kill_switch (p : VpnPlugin) : VpnPlugin :=
  { p with kill_switch_active := true }

/-- `VpnPlugin::connect`: reject if already connected; engage the kill
switch when configured; create the tunnel (propagating its error); run
key-pair generation and store the engine; mark the tunnel `Connected`. -/
def connect (p : VpnPlugin) (server : VpnServer) : VpnPlugin × VpnResult Unit :=
  if p.is_connected then
    (p, Except.error (VpnError.Connection "Already connected"))
  else
    let p1 := if p.config.kill_switch then p.activate_kill_switch else p
    match p1.tunnel_manager.create_tunnel server with
    | (tm, Except.error e) =>
        ({ p1 with tunnel_manager := tm }, Except.error e)
    | (tm, Except.ok _) =>
        let ke0 := PqcKeyExchange.new p1.config.key_exchange
        match ke0.generate_keypair with
        | (_, Except.error e) =>
            ({ p1 with tunnel_manager := tm }, Except.error e)
        | (ke1, Except.ok _public_key) =>
            ({ p1 with
                tunnel_manager := tm.update_state TunnelState.Connected,
                key_exchange := some ke1 },
             Except.ok ())

/-- `VpnPlugin::connect_optimal`: resolve a target through the router's
`find_optimal_server`, failing with a Connection error when none exists,
otherwise delegating to `connect` on a clone of the chosen server. -/
def connect_optimal (p : VpnPlugin) : VpnPlugin × VpnResult Unit :=
  match p.router.find_optimal_server with
  | none => (p, Except.error (VpnError.Connection "No servers available"))
  | some server => p.connect server

end VpnPlugin

section KeyExchangeClaims

/-- C3: for every complete handshake run between engines A and B (A generates
a key pair, B encapsulates on A's public key, A decapsulates B's ciphertext,
all succeeding), the secret A holds afterwards is bit-identical to the secret
B holds, and both are exactly 32 bytes long. -/
theorem handshake_secrets_agree
    (A B A1 A2 B1 : PqcKeyExchange) (pk ct ssA ssB : List Nat)
    (hA : A.generate_keypair = (A1, Except.ok pk))
    (hB : B.encapsulate pk = (B1, Except.ok (ct, ssB)))
    (hD : A1.decapsulate ct = (A2, Except.ok ssA)) :
    A2.shared_secret = some ssA ∧ B1.shared_secret = some ssB ∧
    ssA = ssB ∧ ssA.length = 32 ∧ ssB.length = 32 := by
  simp only [PqcKeyExchange.generate_keypair, Prod.mk.injEq, Except.ok.injEq] at hA
  obtain ⟨-, hpk⟩ := hA
  subst hpk
  rw [PqcKeyExchange.encapsulate, if_neg (by simp)] at hB
  simp only [Prod.mk.injEq, Except.ok.injEq] at hB
  obtain ⟨hB1, hct, hssB⟩ := hB
  subst hct
  rw [PqcKeyExchange.decapsulate, if_neg (by simp)] at hD
  simp only [Prod.mk.injEq, Except.ok.injEq] at hD
  obtain ⟨hA2, hssA⟩ := hD
  subst hssA hssB
  exact ⟨by rw [← hA2], by rw [← hB1], rfl, by simp, by simp⟩

/-- C3 witness: a concrete complete handshake between two fresh engines,
with every hypothesis discharged by evaluation. -/
theorem handshake_secrets_agree_witness :
    ((PqcKeyExchange.new KeyExchangeProtocol.HybridMlKem).generate_keypair.1.decapsulate
        (List.replicate 1088 0)).1.shared_secret = some (List.replicate 32 0) ∧
    ((PqcKeyExchange.new KeyExchangeProtocol.MlKem).encapsulate
        (List.replicate 1184 0)).1.shared_secret = some (List.replicate 32 0) ∧
    (List.replicate 32 (0 : Nat)).length = 32 := by
  have h := handshake_secrets_agree
    (PqcKeyExchange.new KeyExchangeProtocol.HybridMlKem)
    (PqcKeyExchange.new KeyExchangeProtocol.MlKem)
    (PqcKeyExchange.new KeyExchangeProtocol.HybridMlKem).generate_keypair.1
    ((PqcKeyExchange.new KeyExchangeProtocol.HybridMlKem).generate_keypair.1.decapsulate
      (List.replicate 1088 0)).1
    ((PqcKeyExchange.new KeyExchangeProtocol.MlKem).encapsulate (List.replicate 1184 0)).1
    (List.replicate 1184 0) (List.replicate 1088 0)
    (List.replicate 32 0) (List.replicate 32 0) rfl rfl rfl
  exact ⟨h.1, h.2.1, h.2.2.2.1⟩

/-- C4: encapsulating an empty peer public key and decapsulating an empty
ciphertext both fail with a KeyExchange error and leave the engine's state
(public key and shared secret included) exactly as it was. -/
theorem empty_input_rejected (s : PqcKeyExchange) :
    s.encapsulate [] = (s, Except.error (VpnError.KeyExchange "Empty server public key")) ∧
    s.decapsulate [] = (s, Except.error (VpnError.KeyExchange "Empty ciphertext")) :=
  ⟨rfl, rfl⟩

/-- C5: `zero_fill` (the overwrite step of `clear`) turns both held buffers
into all-zero buffers of the same length, and after `clear` both buffers are
discarded, so the `shared_secret` accessor returns absent and no byte of the
old buffers remains observable. -/
theorem clear_zeroizes (s : PqcKeyExchange) :
    (s.zero_fill).public_key = s.public_key.map (fun l => List.replicate l.length 0) ∧
    (s.zero_fill).shared_secret = s.shared_secret.map (fun l => List.replicate l.length 0) ∧
    (s.clear).public_key = none ∧ (s.clear).shared_secret = none ∧
    (s.clear).shared_secret_of = none := by
  refine ⟨?_, ?_, rfl, rfl, rfl⟩
  · rcases h : s.public_key with - | l <;>
      simp [PqcKeyExchange.zero_fill, h, List.map_const']
  · rcases h : s.shared_secret with - | l <;>
      simp [PqcKeyExchange.zero_fill, h, List.map_const']

end KeyExchangeClaims

section RouterClaims

/-- `updateFirst` is the identity when no server carries the requested id. -/
theorem updateFirst_id_of_absent (l : List VpnServer) (sid : String) (load : ℚ)
    (h : ∀ s ∈ l, s.id ≠ sid) : NeuralRouter.updateFirst l sid load = l := by
  induction l with
  | nil => rfl
  | cons s rest ih =>
      have hs : s.id ≠ sid := h s (List.mem_cons_self s rest)
      simp only [NeuralRouter.updateFirst, if_neg hs, List.cons.injEq, true_and]
      exact ih (fun t ht => h t (List.mem_cons_of_mem s ht))

/-- Every server in the pool after `updateFirst` is either an original pool
member or the matching server with its load rewritten to the clamped value. -/
theorem updateFirst_mem (l : List VpnServer) (sid : String) (load : ℚ) :
    ∀ s' ∈ NeuralRouter.updateFirst l sid load,
      s' ∈ l ∨ (s'.id = sid ∧ s'.load = NeuralRouter.clampLoad load) := by
  induction l with
  | nil => intro s' h; cases h
  | cons s rest ih =>
      intro s' h
      by_cases hs : s.id = sid
      · rw [NeuralRouter.updateFirst, if_pos hs] at h
        rcases List.mem_cons.mp h with h1 | h1
        · exact Or.inr ⟨by rw [h1]; exact hs, by rw [h1]⟩
        · exact Or.inl (List.mem_cons_of_mem s h1)
      · rw [NeuralRouter.updateFirst, if_neg hs] at h
        rcases List.mem_cons.mp h with h1 | h1
        · exact Or.inl (h1 ▸ List.mem_cons_self s rest)
        · rcases ih s' h1 with h2 | h2
          · exact Or.inl (List.mem_cons_of_mem s h2)
          · exact Or.inr h2

/-- The clamped load always lands in `[0, 1]`. -/
theorem clampLoad_bounds (load : ℚ) :
    0 ≤ NeuralRouter.clampLoad load ∧ NeuralRouter.clampLoad load ≤ 1 := by
  unfold NeuralRouter.clampLoad
  split_ifs <;> constructor <;> linarith

/-- When some server carries the requested id, `updateFirst` rewrites the
load of the first such server to the clamped value and leaves every other
entry untouched: the pool splits around that server. -/
theorem updateFirst_store (l : List VpnServer) (sid : String) (load : ℚ)
    (h : ∃ s ∈ l, s.id = sid) :
    ∃ l1 s0 l2, l = l1 ++ s0 :: l2 ∧ s0.id = sid ∧ (∀ t ∈ l1, t.id ≠ sid) ∧
      NeuralRouter.updateFirst l sid load
        = l1 ++ { s0 with load := NeuralRouter.clampLoad load } :: l2 := by
  induction l with
  | nil => obtain ⟨s, hs, -⟩ := h; cases hs
  | cons a rest ih =>
      by_cases ha : a.id = sid
      · refine ⟨[], a, rest, rfl, ha, by simp, ?_⟩
        rw [NeuralRouter.updateFirst, if_pos ha]
        rfl
      · obtain ⟨s, hs, hid⟩ := h
        rcases List.mem_cons.mp hs with rfl | hs
        · exact absurd hid ha
        · obtain ⟨l1, s0, l2, hdec, hid0, hnot, heq⟩ := ih ⟨s, hs, hid⟩
          refine ⟨a :: l1, s0, l2, by rw [hdec, List.cons_append], hid0, ?_, ?_⟩
          · intro t ht
            rcases List.mem_cons.mp ht with rfl | ht
            · exact ha
            · exact hnot t ht
          · rw [NeuralRouter.updateFirst, if_neg ha, heq, List.cons_append]

/-- C6: when the pool holds a server with the requested id, `update_server_load`
stores exactly the clamped value `clampLoad load` ∈ `[0, 1]` on the first such
server and leaves every other entry unchanged (so input `17/10` stores `1` and
input `-3/10` stores `0`, by the last two conjuncts); when the id is absent it
is a no-op on the whole router (and, being total, it reports no error). -/
theorem update_load_clamps (r : NeuralRouter) (sid : String) (load : ℚ) :
    ((∀ s ∈ r.servers, s.id ≠ sid) → r.update_server_load sid load = r) ∧
    ((∃ s ∈ r.servers, s.id = sid) →
      ∃ l1 s0 l2, r.servers = l1 ++ s0 :: l2 ∧ s0.id = sid ∧
        (∀ t ∈ l1, t.id ≠ sid) ∧
        (r.update_server_load sid load).servers
          = l1 ++ { s0 with load := NeuralRouter.clampLoad load } :: l2 ∧
        0 ≤ NeuralRouter.clampLoad load ∧ NeuralRouter.clampLoad load ≤ 1) ∧
    (load > 1 → NeuralRouter.clampLoad load = 1) ∧
    (load < 0 → NeuralRouter.clampLoad load = 0) := by
  refine ⟨?_, ?_, ?_, ?_⟩
  · intro h
    simp only [NeuralRouter.update_server_load, updateFirst_id_of_absent r.servers sid load h]
  · intro h
    obtain ⟨l1, s0, l2, hdec, hid0, hnot, heq⟩ := updateFirst_store r.servers sid load h
    exact ⟨l1, s0, l2, hdec, hid0, hnot, heq,
      (clampLoad_bounds load).1, (clampLoad_bounds load).2⟩
  · intro h; unfold NeuralRouter.clampLoad; split_ifs <;> linarith
  · intro h; unfold NeuralRouter.clampLoad; split_ifs <;> linarith

/-- A pool entry whose load gets overwritten in the C6 witness. -/
def demoHot : VpnServer :=
  { id := "a", hostname := "h", port := 443, country := "eu-west",
    city := "c", load := 5, pqc_enabled := true }

/-- C6 witness: on the one-server pool `[demoHot]` (id `a`), updating `a`
with `17/10` really stores the clamped value on that server (the pool splits
as `[] ++ updated :: []`), `clampLoad` sends `17/10` to `1` and `-3/10` to
`0`, and updating the absent id `b` leaves the router unchanged. -/
theorem update_load_clamps_witness :
    (∃ l1 s0 l2, ({ servers := [demoHot] } : NeuralRouter).servers = l1 ++ s0 :: l2 ∧
        s0.id = "a" ∧ (∀ t ∈ l1, t.id ≠ "a") ∧
        (NeuralRouter.update_server_load { servers := [demoHot] } "a" (17 / 10)).servers
          = l1 ++ { s0 with load := NeuralRouter.clampLoad (17 / 10) } :: l2 ∧
        0 ≤ NeuralRouter.clampLoad (17 / 10) ∧ NeuralRouter.clampLoad (17 / 10) ≤ 1) ∧
    NeuralRouter.clampLoad (17 / 10) = 1 ∧
    NeuralRouter.clampLoad (-3 / 10) = 0 ∧
    NeuralRouter.update_server_load { servers := [demoHot] } "b" (17 / 10)
      = { servers := [demoHot] } := by
  refine ⟨?_, ?_, ?_, ?_⟩
  · exact (update_load_clamps { servers := [demoHot] } "a" (17 / 10)).2.1
      ⟨demoHot, List.mem_singleton.mpr rfl, rfl⟩
  · exact (update_load_clamps { servers := [demoHot] } "a" (17 / 10)).2.2.1 (by norm_num)
  · exact (update_load_clamps { servers := [demoHot] } "a" (-3 / 10)).2.2.2 (by norm_num)
  · exact (update_load_clamps { servers := [demoHot] } "b" (17 / 10)).1
      (by intro s hs; rw [List.mem_singleton.mp hs]; decide)

end RouterClaims

section RouterSelectionClaims

/-- Follows the spec's words for the §4.3 tie-break ("ties broken by pool
iteration order, first minimal element encountered"): structural recursion
returning the first element attaining the minimum load. The implementation's
fold (`minByLoad`) is proved to coincide with it. -/
def firstMinByLoad : List VpnServer → Option VpnServer
  | [] => none
  | s :: rest =>
      match firstMinByLoad rest with
      | none => some s
      | some t => if s.load ≤ t.load then some s else some t

/-- `firstMinByLoad` returns absent exactly on the empty pool. -/
theorem firstMinByLoad_eq_none (l : List VpnServer) :
    firstMinByLoad l = none ↔ l = [] := by
  cases l with
  | nil => simp [firstMinByLoad]
  | cons a rest =>
      rw [firstMinByLoad]
      rcases h : firstMinByLoad rest with - | t
      · simp
      · simp only [List.cons_ne_nil, iff_false]
        split_ifs <;> simp

/-- The first-minimum element has minimal load. -/
theorem firstMinByLoad_le (l : List VpnServer) (s : VpnServer)
    (h : firstMinByLoad l = some s) : ∀ t ∈ l, s.load ≤ t.load := by
  induction l generalizing s with
  | nil => cases h
  | cons a rest ih =>
      rw [firstMinByLoad] at h
      rcases hr : firstMinByLoad rest with - | t
      · simp only [hr] at h
        injection h with h
        subst h
        have hnil : rest = [] := (firstMinByLoad_eq_none rest).mp hr
        subst hnil
        simp
      · simp only [hr] at h
        intro u hu
        rcases List.mem_cons.mp hu with rfl | hu
        · split_ifs at h with hle
          · injection h with h; subst h; exact le_refl _
          · injection h with h; subst h; exact le_of_lt (not_le.mp hle)
        · have ht := ih t hr u hu
          split_ifs at h with hle
          · injection h with h; subst h; exact le_trans hle ht
          · injection h with h; subst h; exact ht

/-- The implementation's fold (Rust `Iterator::min_by`, which keeps the
accumulator on ties) applied after an accumulator seed equals the
first-minimum of the list, compared once against the seed. -/
theorem foldl_minBy_eq (l : List VpnServer) (acc : VpnServer) :
    l.foldl (fun a y => if y.load < a.load then y else a) acc =
      (firstMinByLoad l).elim acc (fun t => if t.load < acc.load then t else acc) := by
  induction l generalizing acc with
  | nil => rfl
  | cons s rest ih =>
      rw [List.foldl_cons, ih, firstMinByLoad]
      rcases h : firstMinByLoad rest with - | t
      · simp only [h, Option.elim_none, Option.elim_some]
      · simp only [h, Option.elim_none, Option.elim_some]
        by_cases hst : s.load ≤ t.load
        · rw [if_pos hst]
          simp only [Option.elim_some]
          split_ifs <;> first | rfl | (exfalso; linarith)
        · rw [if_neg hst]
          simp only [Option.elim_some]
          split_ifs <;> first | rfl | (exfalso; linarith)

/-- `minByLoad` (the source's selection) coincides with the spec's
first-minimum rule. -/
theorem minByLoad_eq_firstMin (l : List VpnServer) :
    NeuralRouter.minByLoad l = firstMinByLoad l := by
  cases l with
  | nil => rfl
  | cons s rest =>
      rw [NeuralRouter.minByLoad, foldl_minBy_eq, firstMinByLoad]
      rcases h : firstMinByLoad rest with - | t
      · simp only [h, Option.elim_none, Option.elim_some]
      · simp only [h, Option.elim_none, Option.elim_some]
        split_ifs <;> first | rfl | (exfalso; linarith)

/-- The selected server is a member of the pool it was selected from. -/
theorem firstMinByLoad_mem (l : List VpnServer) (s : VpnServer)
    (h : firstMinByLoad l = some s) : s ∈ l := by
  induction l generalizing s with
  | nil => cases h
  | cons a rest ih =>
      rw [firstMinByLoad] at h
      rcases hr : firstMinByLoad rest with - | t
      · simp only [hr] at h
        injection h with h; subst h; exact List.mem_cons_self a rest
      · simp only [hr] at h
        split_ifs at h with hle
        · injection h with h; subst h; exact List.mem_cons_self a rest
        · injection h with h; subst h; exact List.mem_cons_of_mem a (ih t hr)

/-- The first-minimum is the first of the tied minima: the pool splits as
`l1 ++ s :: l2` with every earlier candidate strictly heavier and every
later candidate at least as heavy. -/
theorem firstMinByLoad_first_of_ties (l : List VpnServer) (s : VpnServer)
    (h : firstMinByLoad l = some s) :
    ∃ l1 l2, l = l1 ++ s :: l2 ∧ (∀ t ∈ l1, s.load < t.load) ∧
      ∀ t ∈ l2, s.load ≤ t.load := by
  induction l generalizing s with
  | nil => cases h
  | cons a rest ih =>
      rw [firstMinByLoad] at h
      rcases hr : firstMinByLoad rest with - | t
      · simp only [hr] at h
        injection h with h
        subst h
        have hnil : rest = [] := (firstMinByLoad_eq_none rest).mp hr
        subst hnil
        exact ⟨[], [], rfl, by simp, by simp⟩
      · simp only [hr] at h
        split_ifs at h with hle
        · injection h with h
          subst h
          refine ⟨[], rest, rfl, by simp, ?_⟩
          intro u hu
          exact le_trans hle (firstMinByLoad_le rest t hr u hu)
        · injection h with h
          subst h
          obtain ⟨l1, l2, hdec, h1, h2⟩ := ih t hr
          refine ⟨a :: l1, l2, by rw [hdec, List.cons_append], ?_, h2⟩
          intro u hu
          rcases List.mem_cons.mp hu with rfl | hu
          · exact not_le.mp hle
          · exact h1 u hu

end RouterSelectionClaims

/-- Demo pool entries used by concrete witnesses. -/
def demoA : VpnServer :=
  { id := "a", hostname := "a.example", port := 443, country := "eu-west",
    city := "ams", load := 4 / 5, pqc_enabled := true }

def demoB : VpnServer :=
  { id := "b", hostname := "b.example", port := 443, country := "eu-west",
    city := "ber", load := 1 / 5, pqc_enabled := true }

def demoC : VpnServer :=
  { id := "c", hostname := "c.example", port := 443, country := "eu-west",
    city := "cdg", load := 1 / 5, pqc_enabled := true }

def demoNoPqc1 : VpnServer :=
  { id := "n1", hostname := "n1.example", port := 443, country := "eu-west",
    city := "ams", load := 0, pqc_enabled := false }

def demoNoPqc2 : VpnServer :=
  { id := "n2", hostname := "n2.example", port := 443, country := "eu-west",
    city := "ber", load := 3 / 10, pqc_enabled := false }

/-- C7: neither selection routine ever returns a server without the
post-quantum flag (or, for the country variant, outside the country), and
when no server qualifies the result is absent. -/
theorem best_server_pqc_only (r : NeuralRouter) (country : String) (s s' : VpnServer) :
    (r.find_best_server country = some s → s.country = country ∧ s.pqc_enabled = true) ∧
    (r.find_optimal_server = some s' → s'.pqc_enabled = true) ∧
    ((∀ t ∈ r.servers, t.country = country → t.pqc_enabled = false) →
        r.find_best_server country = none) ∧
    ((∀ t ∈ r.servers, t.pqc_enabled = false) → r.find_optimal_server = none) := by
  refine ⟨?_, ?_, ?_, ?_⟩
  · intro h
    rw [NeuralRouter.find_best_server, minByLoad_eq_firstMin] at h
    have hmem := firstMinByLoad_mem _ s h
    simp only [List.mem_filter, decide_eq_true_eq] at hmem
    exact ⟨hmem.2.1, hmem.2.2⟩
  · intro h
    rw [NeuralRouter.find_optimal_server, minByLoad_eq_firstMin] at h
    have hmem := firstMinByLoad_mem _ s' h
    simp only [List.mem_filter] at hmem
    exact hmem.2
  · intro h
    rw [NeuralRouter.find_best_server, minByLoad_eq_firstMin]
    rw [(firstMinByLoad_eq_none _)]
    rw [List.filter_eq_nil_iff]
    intro t ht
    simp only [decide_eq_true_eq, not_and]
    intro hc
    simp [h t ht hc]
  · intro h
    rw [NeuralRouter.find_optimal_server, minByLoad_eq_firstMin]
    rw [(firstMinByLoad_eq_none _)]
    rw [List.filter_eq_nil_iff]
    intro t ht
    simp [h t ht]

/-- C7 witness: a pool holding only non-PQC servers in `eu-west`, one of
them at load `0`, yields absent from both selection routines. -/
theorem best_server_pqc_only_witness :
    NeuralRouter.find_best_server { servers := [demoNoPqc1, demoNoPqc2] } "eu-west" = none ∧
    NeuralRouter.find_optimal_server { servers := [demoNoPqc1, demoNoPqc2] } = none := by
  constructor
  · exact (best_server_pqc_only { servers := [demoNoPqc1, demoNoPqc2] }
      "eu-west" demoNoPqc1 demoNoPqc1).2.2.1 (by decide)
  · exact (best_server_pqc_only { servers := [demoNoPqc1, demoNoPqc2] }
      "eu-west" demoNoPqc1 demoNoPqc1).2.2.2 (by decide)

/-- C8: when either selection routine returns a server, that server is the
first-inserted among those tied at the minimum load of the eligible pool:
the eligible pool splits around it with every earlier candidate strictly
heavier and every later candidate at least as heavy. (Both routines are
pure functions of the pool, so repeated calls on an unmutated pool return
the same server definitionally.) -/
theorem best_first_of_ties (r : NeuralRouter) (country : String) (s s' : VpnServer)
    (h : r.find_optimal_server = some s)
    (h' : r.find_best_server country = some s') :
    (∃ l1 l2,
        r.servers.filter (fun t => t.pqc_enabled) = l1 ++ s :: l2 ∧
        (∀ t ∈ l1, s.load < t.load) ∧ ∀ t ∈ l2, s.load ≤ t.load) ∧
    ∃ l1 l2,
        r.servers.filter (fun t => t.country = country ∧ t.pqc_enabled) = l1 ++ s' :: l2 ∧
        (∀ t ∈ l1, s'.load < t.load) ∧ ∀ t ∈ l2, s'.load ≤ t.load := by
  constructor
  · rw [NeuralRouter.find_optimal_server, minByLoad_eq_firstMin] at h
    exact firstMinByLoad_first_of_ties _ s h
  · rw [NeuralRouter.find_best_server, minByLoad_eq_firstMin] at h'
    exact firstMinByLoad_first_of_ties _ s' h'

/-- C8 witness: over the pool with loads `{4/5, 1/5, 1/5}` (two tied at the
minimum) both routines select `demoB`, the first-inserted of the tied pair,
and the pool splits around it as the claim theorem states. -/
theorem best_first_of_ties_witness :
    (∃ l1 l2,
        [demoA, demoB, demoC].filter (fun t => t.pqc_enabled) = l1 ++ demoB :: l2 ∧
        (∀ t ∈ l1, demoB.load < t.load) ∧ ∀ t ∈ l2, demoB.load ≤ t.load) ∧
    ∃ l1 l2,
        [demoA, demoB, demoC].filter (fun t => t.country = "eu-west" ∧ t.pqc_enabled)
            = l1 ++ demoB :: l2 ∧
        (∀ t ∈ l1, demoB.load < t.load) ∧ ∀ t ∈ l2, demoB.load ≤ t.load :=
  best_first_of_ties { servers := [demoA, demoB, demoC] } "eu-west" demoB demoB
    (by norm_num [NeuralRouter.find_optimal_server, NeuralRouter.minByLoad,
      demoA, demoB, demoC, List.filter, List.foldl])
    (by norm_num [NeuralRouter.find_best_server, NeuralRouter.minByLoad,
      demoA, demoB, demoC, List.filter, List.foldl])

section TunnelClaims

/-- A step of a create/close sequence against the tunnel state machine. -/
inductive TunnelOp where
  | create (server : VpnServer)
  | close

/-- Apply one operation, recording the id a successful create returned. -/
def stepOp (m : TunnelManager) : TunnelOp → TunnelManager × Option Nat
  | TunnelOp.create server =>
      match m.create_tunnel server with
      | (m1, Except.ok id) => (m1, some id)
      | (m1, Except.error _) => (m1, none)
  | TunnelOp.close => (m.close_tunnel, none)

/-- Run a sequence of operations, collecting every id returned by a
successful create. -/
def runOps : TunnelManager → List TunnelOp → TunnelManager × List Nat
  | m, [] => (m, [])
  | m, op :: rest =>
      let s := stepOp m op
      let r := runOps s.1 rest
      (r.1, s.2.toList ++ r.2)

/-- `next_tunnel_id` never decreases under a run, and every id handed out
during the run is strictly below the final `next_tunnel_id`. -/
theorem runOps_ids_lt (ops : List TunnelOp) (m : TunnelManager) :
    m.next_tunnel_id ≤ (runOps m ops).1.next_tunnel_id ∧
    ∀ i ∈ (runOps m ops).2, i < (runOps m ops).1.next_tunnel_id := by
  induction ops generalizing m with
  | nil => exact ⟨le_refl _, by simp [runOps]⟩
  | cons op rest ih =>
      rcases op with server | -
      · by_cases hact : m.active_tunnel.isSome
        · have hstep : stepOp m (TunnelOp.create server) = (m, none) := by
            simp [stepOp, TunnelManager.create_tunnel, hact]
          simp only [runOps, hstep, Option.toList_none, List.nil_append]
          exact ih m
        · have hstep : stepOp m (TunnelOp.create server) =
              ({ active_tunnel := some
                  { id := m.next_tunnel_id, server := server,
                    state := TunnelState.Connecting,
                    encryption := EncryptionAlgorithm.Aes256GcmPqc,
                    key_exchange := KeyExchangeProtocol.HybridMlKem,
                    stats := ConnectionStats.default },
                 next_tunnel_id := m.next_tunnel_id + 1 }, some m.next_tunnel_id) := by
            simp [stepOp, TunnelManager.create_tunnel, hact]
          simp only [runOps, hstep, Option.toList_some, List.singleton_append]
          have hle : m.next_tunnel_id + 1 ≤
              (runOps
                { active_tunnel := some
                    { id := m.next_tunnel_id, server := server,
                      state := TunnelState.Connecting,
                      encryption := EncryptionAlgorithm.Aes256GcmPqc,
                      key_exchange := KeyExchangeProtocol.HybridMlKem,
                      stats := ConnectionStats.default },
                  next_tunnel_id := m.next_tunnel_id + 1 } rest).1.next_tunnel_id :=
            (ih
              { active_tunnel := some
                  { id := m.next_tunnel_id, server := server,
                    state := TunnelState.Connecting,
                    encryption := EncryptionAlgorithm.Aes256GcmPqc,
                    key_exchange := KeyExchangeProtocol.HybridMlKem,
                    stats := ConnectionStats.default },
                next_tunnel_id := m.next_tunnel_id + 1 }).1
          have hlt := (ih
            { active_tunnel := some
                { id := m.next_tunnel_id, server := server,
                  state := TunnelState.Connecting,
                  encryption := EncryptionAlgorithm.Aes256GcmPqc,
                  key_exchange := KeyExchangeProtocol.HybridMlKem,
                  stats := ConnectionStats.default },
              next_tunnel_id := m.next_tunnel_id + 1 }).2
          refine ⟨by omega, ?_⟩
          intro i hi
          rcases List.mem_cons.mp hi with rfl | hi
          · omega
          · exact hlt i hi
      · have hstep : stepOp m TunnelOp.close = (m.close_tunnel, none) := rfl
        simp only [runOps, hstep, Option.toList_none, List.nil_append]
        have hnext : (m.close_tunnel).next_tunnel_id = m.next_tunnel_id := by
          rw [TunnelManager.close_tunnel, TunnelManager.update_state]
          rcases m.active_tunnel with - | t <;> rfl
        obtain ⟨hle, hlt⟩ := ih m.close_tunnel
        exact ⟨by omega, hlt⟩

/-- C2: after any create/close sequence from the empty state machine, a
create while a tunnel is active fails with a Tunnel error and changes
nothing, while a create with no active tunnel succeeds and returns an id
strictly greater than every id any previous create returned. -/
theorem create_close_discipline (ops : List TunnelOp) (server : VpnServer)
    (m : TunnelManager) (ids : List Nat)
    (hrun : runOps TunnelManager.new ops = (m, ids)) :
    (m.active_tunnel.isSome →
        m.create_tunnel server =
          (m, Except.error (VpnError.Tunnel "Tunnel already active"))) ∧
    (m.active_tunnel = none →
        (m.create_tunnel server).2 = Except.ok m.next_tunnel_id ∧
        ∀ i ∈ ids, i < m.next_tunnel_id) := by
  constructor
  · intro hact
    simp [TunnelManager.create_tunnel, hact]
  · intro hnone
    have hact : m.active_tunnel.isSome = false := by simp [hnone]
    constructor
    · simp [TunnelManager.create_tunnel, hact]
    · have h := (runOps_ids_lt ops TunnelManager.new).2
      rw [hrun] at h
      exact h

/-- C2 witness: running `[create, close]` from the empty machine hands out
id `1`; a create on the resulting empty machine returns id `2 > 1`; and a
create right after a create (no intervening close) fails with the Tunnel
error and leaves the machine unchanged. -/
theorem create_close_discipline_witness :
    ((runOps TunnelManager.new [TunnelOp.create demoA, TunnelOp.close]).1.create_tunnel
        demoB).2 = Except.ok 2 ∧
    (1 : Nat) < 2 ∧
    (runOps TunnelManager.new [TunnelOp.create demoA]).1.create_tunnel demoB =
      ((runOps TunnelManager.new [TunnelOp.create demoA]).1,
       Except.error (VpnError.Tunnel "Tunnel already active")) := by
  refine ⟨?_, ?_, ?_⟩
  · exact ((create_close_discipline [TunnelOp.create demoA, TunnelOp.close] demoB
      (runOps TunnelManager.new [TunnelOp.create demoA, TunnelOp.close]).1
      (runOps TunnelManager.new [TunnelOp.create demoA, TunnelOp.close]).2
      rfl).2 rfl).1
  · exact ((create_close_discipline [TunnelOp.create demoA, TunnelOp.close] demoB
      (runOps TunnelManager.new [TunnelOp.create demoA, TunnelOp.close]).1
      (runOps TunnelManager.new [TunnelOp.create demoA, TunnelOp.close]).2
      rfl).2 rfl).2 1 (by decide)
  · exact (create_close_discipline [TunnelOp.create demoA] demoB
      (runOps TunnelManager.new [TunnelOp.create demoA]).1
      (runOps TunnelManager.new [TunnelOp.create demoA]).2
      rfl).1 rfl

end TunnelClaims

section PluginClaims

/-- The kill-switch branch of `connect` never touches the tunnel manager. -/
theorem killSwitchBranch_tm (p : VpnPlugin) :
    (if p.config.kill_switch then p.activate_kill_switch else p).tunnel_manager
      = p.tunnel_manager := by
  split_ifs <;> rfl

/-- The kill-switch branch of `connect` never touches the configuration. -/
theorem killSwitchBranch_config (p : VpnPlugin) :
    (if p.config.kill_switch then p.activate_kill_switch else p).config
      = p.config := by
  split_ifs <;> rfl

/-- After the kill-switch branch of `connect`, the kill switch is active
when configured on, untouched otherwise. -/
theorem killSwitchBranch_ks (p : VpnPlugin) :
    (if p.config.kill_switch then p.activate_kill_switch else p).kill_switch_active
      = (if p.config.kill_switch then true else p.kill_switch_active) := by
  split_ifs <;> rfl

/-- C9: when the router holds no eligible (PQC-enabled) server,
`connect_optimal` fails with a Connection error and the whole plugin — the
kill-switch state in particular — is exactly what it was before the call. -/
theorem connect_optimal_no_servers (p : VpnPlugin)
    (h : ∀ t ∈ p.router.servers, t.pqc_enabled = false) :
    p.connect_optimal = (p, Except.error (VpnError.Connection "No servers available")) ∧
    p.connect_optimal.1.kill_switch_active = p.kill_switch_active := by
  have hnone : p.router.find_optimal_server = none := by
    rw [NeuralRouter.find_optimal_server, minByLoad_eq_firstMin,
      firstMinByLoad_eq_none, List.filter_eq_nil_iff]
    intro t ht
    simp [h t ht]
  have hres : p.connect_optimal
      = (p, Except.error (VpnError.Connection "No servers available")) := by
    rw [VpnPlugin.connect_optimal, hnone]
  exact ⟨hres, by rw [hres]⟩

/-- C9 witness: a freshly constructed plugin has an empty router, so
`connect_optimal` fails with the Connection error and the kill switch stays
inactive. -/
theorem connect_optimal_no_servers_witness :
    (VpnPlugin.new VpnConfig.default).connect_optimal
      = (VpnPlugin.new VpnConfig.default,
         Except.error (VpnError.Connection "No servers available")) ∧
    (VpnPlugin.new VpnConfig.default).connect_optimal.1.kill_switch_active
      = (VpnPlugin.new VpnConfig.default).kill_switch_active :=
  connect_optimal_no_servers (VpnPlugin.new VpnConfig.default)
    (by intro t ht; simp [VpnPlugin.new, NeuralRouter.new] at ht)

end PluginClaims

section StaleTunnelClaim

/-- A tunnel record left in `Connecting` state, for concrete witnesses. -/
def demoTunnel : VpnTunnel :=
  { id := 1, server := demoA, state := TunnelState.Connecting,
    encryption := EncryptionAlgorithm.Aes256GcmPqc,
    key_exchange := KeyExchangeProtocol.HybridMlKem,
    stats := ConnectionStats.default }

/-- A plugin whose tunnel exists but is not `Connected`. -/
def stalePlugin : VpnPlugin :=
  { config := VpnConfig.default,
    tunnel_manager := { active_tunnel := some demoTunnel, next_tunnel_id := 2 },
    key_exchange := none, router := NeuralRouter.new, kill_switch_active := false }

/-- `stalePlugin` with its tunnel in state `Connected`. -/
def connectedPlugin : VpnPlugin :=
  { stalePlugin with
    tunnel_manager :=
      { active_tunnel := some { demoTunnel with state := TunnelState.Connected },
        next_tunnel_id := 2 } }

/-- C10: with a tunnel present in any state other than `Connected`,
`connect` passes the already-connected check, engages the kill switch when
configured on, then fails with the Tunnel error from tunnel creation,
leaving the kill switch engaged and the tunnel manager unchanged; and
`connect` returns a Connection error only when the tunnel state is exactly
`Connected`. -/
theorem connect_stale_tunnel (p : VpnPlugin) (server : VpnServer) (t : VpnTunnel)
    (hactive : p.tunnel_manager.active_tunnel = some t)
    (hstate : t.state ≠ TunnelState.Connected) :
    (p.connect server).2 = Except.error (VpnError.Tunnel "Tunnel already active") ∧
    (p.connect server).1.kill_switch_active
      = (if p.config.kill_switch then true else p.kill_switch_active) ∧
    (p.connect server).1.tunnel_manager = p.tunnel_manager ∧
    ∀ (q : VpnPlugin) (srv : VpnServer) (msg : String),
      (q.connect srv).2 = Except.error (VpnError.Connection msg) →
      q.is_connected = true := by
  have hconn : p.is_connected = false := by
    rw [VpnPlugin.is_connected, TunnelManager.is_connected, hactive]
    simp [hstate]
  have hcreate :
      (if p.config.kill_switch then p.activate_kill_switch else p).tunnel_manager.create_tunnel
          server
        = ((if p.config.kill_switch then p.activate_kill_switch else p).tunnel_manager,
           Except.error (VpnError.Tunnel "Tunnel already active")) := by
    rw [TunnelManager.create_tunnel, if_pos]
    rw [killSwitchBranch_tm, hactive]
    rfl
  have hres : p.connect server
      = ({ (if p.config.kill_switch then p.activate_kill_switch else p) with
            tunnel_manager :=
              (if p.config.kill_switch then p.activate_kill_switch else p).tunnel_manager },
         Except.error (VpnError.Tunnel "Tunnel already active")) := by
    rw [VpnPlugin.connect, if_neg (by simp [hconn])]
    simp only [hcreate]
  refine ⟨by rw [hres], ?_, ?_, ?_⟩
  · rw [hres]
    exact killSwitchBranch_ks p
  · rw [hres]
    exact killSwitchBranch_tm p
  · intro q srv msg hq
    by_cases hc : q.is_connected = true
    · exact hc
    · exfalso
      rw [VpnPlugin.connect, if_neg (by simp [hc])] at hq
      by_cases hact :
          (if q.config.kill_switch then q.activate_kill_switch else q).tunnel_manager.active_tunnel.isSome
      · have hcr :
            (if q.config.kill_switch then q.activate_kill_switch else q).tunnel_manager.create_tunnel
                srv
              = ((if q.config.kill_switch then q.activate_kill_switch else q).tunnel_manager,
                 Except.error (VpnError.Tunnel "Tunnel already active")) := by
          rw [TunnelManager.create_tunnel, if_pos hact]
        simp only [hcr] at hq
        exact VpnError.noConfusion (Except.error.inj hq)
      · have hcr :
            ((if q.config.kill_switch then q.activate_kill_switch else q).tunnel_manager.create_tunnel
                srv).2
              = Except.ok
                  (if q.config.kill_switch then q.activate_kill_switch
                    else q).tunnel_manager.next_tunnel_id := by
          rw [TunnelManager.create_tunnel, if_neg hact]
        rcases hpair :
            (if q.config.kill_switch then q.activate_kill_switch else q).tunnel_manager.create_tunnel
              srv with ⟨tm, res⟩
        rw [hpair] at hcr
        simp only at hcr
        subst hcr
        simp only [hpair, PqcKeyExchange.generate_keypair] at hq
        exact Except.noConfusion hq

end StaleTunnelClaim

/-- C10 witness: on the concrete plugin whose tunnel is stuck in
`Connecting`, `connect` fails with the Tunnel error and the configured-on
kill switch ends engaged; a plugin whose tunnel is `Connected` is the one
that yields a Connection error. -/
theorem connect_stale_tunnel_witness :
    (stalePlugin.connect demoB).2
      = Except.error (VpnError.Tunnel "Tunnel already active") ∧
    (stalePlugin.connect demoB).1.kill_switch_active = true ∧
    connectedPlugin.is_connected = true := by
  obtain ⟨h1, h2, h3, h4⟩ :=
    connect_stale_tunnel stalePlugin demoB demoTunnel rfl (by decide)
  refine ⟨h1, ?_, h4 connectedPlugin demoB "Already connected" rfl⟩
  rw [h2]
  rfl

section ConnectSecretClaim

/-- C1 counterexample: on a fresh default plugin, `connect` returns Ok —
yet the key-exchange engine it stored holds no derived shared secret at
all (only the generated public key); the tunnel was transitioned to
`Connected` without any shared secret being available. -/
theorem connect_secret_cx :
    ((VpnPlugin.new VpnConfig.default).connect demoA).2 = Except.ok () ∧
    ¬ ∃ ke ss,
        ((VpnPlugin.new VpnConfig.default).connect demoA).1.key_exchange = some ke ∧
        ke.shared_secret = some ss := by
  constructor
  · rfl
  · rintro ⟨ke, ss, hke, hss⟩
    have hke2 : ke =
        { protocol := KeyExchangeProtocol.HybridMlKem,
          public_key := some (List.replicate 1184 0), shared_secret := none } :=
      Option.some.inj (Eq.trans (Eq.symm rfl) hke).symm
    rw [hke2] at hss
    exact Option.noConfusion hss

/-- C1 (amended): after `connect` returns Ok, the tunnel is `Connected`
and the stored key-exchange engine holds the generated public key — the
client-side start of a handshake — but its shared secret is absent, because
`connect` never runs encapsulation or decapsulation. -/
theorem connect_generates_keypair (p : VpnPlugin) (server : VpnServer)
    (h : (p.connect server).2 = Except.ok ()) :
    (p.connect server).1.key_exchange
      = some { protocol := p.config.key_exchange,
               public_key := some (List.replicate 1184 0),
               shared_secret := none } ∧
    (p.connect server).1.is_connected = true := by
  by_cases hc : p.is_connected = true
  · rw [VpnPlugin.connect, if_pos hc] at h
    exact Except.noConfusion h
  · by_cases hact :
        (if p.config.kill_switch then p.activate_kill_switch else p).tunnel_manager.active_tunnel.isSome
    · have hcr :
          (if p.config.kill_switch then p.activate_kill_switch else p).tunnel_manager.create_tunnel
              server
            = ((if p.config.kill_switch then p.activate_kill_switch else p).tunnel_manager,
               Except.error (VpnError.Tunnel "Tunnel already active")) := by
        rw [TunnelManager.create_tunnel, if_pos hact]
      rw [VpnPlugin.connect, if_neg (by simp [hc])] at h
      simp only [hcr] at h
      exact Except.noConfusion h
    · have hcr :
          (if p.config.kill_switch then p.activate_kill_switch else p).tunnel_manager.create_tunnel
              server
            = ({ active_tunnel := some
                  { id := (if p.config.kill_switch then p.activate_kill_switch
                      else p).tunnel_manager.next_tunnel_id,
                    server := server, state := TunnelState.Connecting,
                    encryption := EncryptionAlgorithm.Aes256GcmPqc,
                    key_exchange := KeyExchangeProtocol.HybridMlKem,
                    stats := ConnectionStats.default },
                 next_tunnel_id := (if p.config.kill_switch then p.activate_kill_switch
                   else p).tunnel_manager.next_tunnel_id + 1 },
               Except.ok (if p.config.kill_switch then p.activate_kill_switch
                 else p).tunnel_manager.next_tunnel_id) := by
        rw [TunnelManager.create_tunnel, if_neg hact]
    
      constructor
      · rw [VpnPlugin.connect, if_neg (by simp [hc])]
        simp only [hcr, PqcKeyExchange.generate_keypair, PqcKeyExchange.new]
        rw [killSwitchBranch_config]
      · rw [VpnPlugin.connect, if_neg (by simp [hc])]
        simp only [hcr, PqcKeyExchange.generate_keypair, PqcKeyExchange.new]
        rfl

/-- C1 (amended) witness: the concrete Ok run of `connect` on a fresh
default plugin, with the hypothesis discharged by evaluation. -/
theorem connect_generates_keypair_witness :
    ((VpnPlugin.new VpnConfig.default).connect demoB).1.key_exchange
      = some { protocol := (VpnPlugin.new VpnConfig.default).config.key_exchange,
               public_key := some (List.replicate 1184 0),
               shared_secret := none } ∧
    ((VpnPlugin.new VpnConfig.default).connect demoB).1.is_connected = true :=
  connect_generates_keypair (VpnPlugin.new VpnConfig.default) demoB rfl

end ConnectSecretClaim
